import Mathlib

/-!
# Verification of the diagnostic-copilot request assembler and dispatcher

Shallow embedding of `services/api.ts` (`fileToGenerativePart`,
`runIntegratedAnalysis`) and the submission guard of `App.tsx`
(`handleAnalyze`), together with proofs of the specified properties.

Conventions of the embedding:
* JavaScript strings are Lean `String`s; binary blobs are byte lists
  (`List Nat`, each entry intended `< 256`).
* The `FileReader.readAsDataURL` browser call is modelled as producing
  `"data:<type>;base64," ++ <RFC 4648 base64 of the bytes>`.
* JavaScript truthiness on strings is `≠ ""`; on optional values it is
  `Option.isSome`; on arrays it is truth (a JS array, even empty, is truthy).
* A thrown `new Error(msg)` is `JsError.thrown msg`; a runtime `TypeError`
  raised by reading a property of `undefined` is `JsError.undefinedAccess f`
  (engine messages for such errors never contain the substring "fetch").
* The single `fetch` is abstracted by a `FetchOutcome` argument; the run
  returns a trace recording the issued requests, the telemetry emissions and
  the final result, so "no network call is attempted" is `requests = []`.
-/

namespace DiagnosticCopilot

/-- Decidable equality of the `Except` results our model produces. -/
instance {α β : Type} [DecidableEq α] [DecidableEq β] :
    DecidableEq (Except α β) := fun a b =>
  match a, b with
  | .ok x, .ok y =>
    if h : x = y then isTrue (by rw [h])
    else isFalse (fun hc => h (by injection hc))
  | .error x, .error y =>
    if h : x = y then isTrue (by rw [h])
    else isFalse (fun hc => h (by injection hc))
  | .ok _, .error _ => isFalse (fun hc => Except.noConfusion hc)
  | .error _, .ok _ => isFalse (fun hc => Except.noConfusion hc)

/-- JS `hay.includes(needle)` on strings, over character lists. -/
def hasSubstring (hay needle : List Char) : Bool :=
  needle.isPrefixOf hay ||
    match hay with
    | [] => false
    | _ :: t => hasSubstring t needle

/-- JS `s.split(',')` over character lists: splits at every comma. -/
def jsSplitList : List Char → List (List Char)
  | [] => [[]]
  | c :: rest =>
    match jsSplitList rest with
    | [] => [[c]]
    | h :: t => if c = ',' then [] :: h :: t else (c :: h) :: t

/-- JS `s.split(',')` on strings. -/
def jsSplitComma (s : String) : List String :=
  (jsSplitList s.data).map String.mk

/-- The RFC 4648 base64 alphabet, as used by the browser data-URL encoder. -/
def b64Alphabet : List Char :=
  ['A', 'B', 'C', 'D', 'E', 'F', 'G', 'H', 'I', 'J', 'K', 'L', 'M',
   'N', 'O', 'P', 'Q', 'R', 'S', 'T', 'U', 'V', 'W', 'X', 'Y', 'Z',
   'a', 'b', 'c', 'd', 'e', 'f', 'g', 'h', 'i', 'j', 'k', 'l', 'm',
   'n', 'o', 'p', 'q', 'r', 's', 't', 'u', 'v', 'w', 'x', 'y', 'z',
   '0', '1', '2', '3', '4', '5', '6', '7', '8', '9', '+', '/']

/-- The alphabet character of a six-bit value. -/
def b64Char (n : Nat) : Char := b64Alphabet.getD n 'A'

/-- The six-bit value of an alphabet character. -/
def b64Index (c : Char) : Nat := b64Alphabet.indexOf c

/-- RFC 4648 base64 encoding of a byte list, three bytes to four characters,
with `=` padding, as performed by the browser inside `readAsDataURL`. -/
def b64EncodeList : List Nat → List Char
  | [] => []
  | [b0] => [b64Char (b0 / 4), b64Char (b0 % 4 * 16), '=', '=']
  | [b0, b1] =>
      [b64Char (b0 / 4), b64Char (b0 % 4 * 16 + b1 / 16),
       b64Char (b1 % 16 * 4), '=']
  | b0 :: b1 :: b2 :: rest =>
      b64Char (b0 / 4) :: b64Char (b0 % 4 * 16 + b1 / 16)
        :: b64Char (b1 % 16 * 4 + b2 / 64) :: b64Char (b2 % 64)
        :: b64EncodeList rest

/-- RFC 4648 base64 decoding of a character list, the inverse reading used to
state round-trip fidelity of the encode step. -/
def b64DecodeList : List Char → List Nat
  | c0 :: c1 :: c2 :: c3 :: rest =>
      if c2 = '=' then
        [b64Index c0 * 4 + b64Index c1 / 16]
      else if c3 = '=' then
        [b64Index c0 * 4 + b64Index c1 / 16,
         b64Index c1 % 16 * 16 + b64Index c2 / 4]
      else
        (b64Index c0 * 4 + b64Index c1 / 16)
          :: (b64Index c1 % 16 * 16 + b64Index c2 / 4)
          :: (b64Index c2 % 4 * 64 + b64Index c3)
          :: b64DecodeList rest
  | _ => []

/-- Base64 encoding as a string. -/
def base64Encode (bs : List Nat) : String := String.mk (b64EncodeList bs)

/-- Base64 decoding of a string. -/
def base64Decode (s : String) : List Nat := b64DecodeList s.data

/-- A browser `File`/`Blob`: contents plus declared media type (for the audio
blob the `name` is unused). -/
structure JsFile where
  name : String
  type : String
  bytes : List Nat
deriving DecidableEq, Repr

/-- The `FileReader.readAsDataURL` result for a file. -/
def readAsDataURL (f : JsFile) : String :=
  "data:" ++ f.type ++ ";base64," ++ base64Encode f.bytes

/-- The `inlineData` object of a generative part. -/
structure InlineData where
  data : String
  mimeType : String
deriving DecidableEq, Repr

/-- The value resolved by `fileToGenerativePart`. -/
structure GenerativePart where
  inlineData : InlineData
deriving DecidableEq, Repr

/-- `fileToGenerativePart` of `services/api.ts`: reads the file as a data URL,
splits on `','` and keeps index 1 (the part after the data-URI prefix), and
pairs it with the passed media type. -/
def fileToGenerativePart (file : JsFile) (mimeType : String) : GenerativePart :=
  { inlineData :=
      { data := (jsSplitComma (readAsDataURL file)).getD 1 ""
        mimeType := mimeType } }

/-- The `AnalysisRequest` interface of `services/api.ts`. -/
structure AnalysisRequest where
  history : String
  examination : String
  files : List JsFile
  audioBlob : Option JsFile
  apiKey : String
  model : String
  donateData : Bool
deriving DecidableEq, Repr

/-- One element of the `parts` array sent upstream: the instruction text or an
encoded attachment. -/
inductive Part where
  | text (s : String)
  | inline (g : GenerativePart)
deriving DecidableEq, Repr

/-- The fixed instruction text that `runIntegratedAnalysis` places first. -/
def instructionHeader : String :=
  "You are a highly advanced Multi-Modal Diagnostic Co-Pilot Medical AI.\nYour task is to analyze the provided clinical data (History, Examination, Diagnostics, Scans, Audio constraints) and output a structured, integrated clinical report using Markdown.\nFormat your output with the following major sections exactly (using ## headings): \n## Integrated Analysis\n## Decision Making\n## Management & Treatment Plan\n\n"

/-- JS `s.trim()`: strips leading and trailing whitespace, embedded
executably over the character list (`Char.isWhitespace` covers the space,
tab, CR and LF characters a form field can hold, where it coincides with the
JS whitespace set). -/
def jsTrim (s : String) : String :=
  String.mk
    (((s.data.dropWhile Char.isWhitespace).reverse.dropWhile
        Char.isWhitespace).reverse)

/-- The prompt assembly of `runIntegratedAnalysis` step 1: `promptText`
starts from the fixed header and appends the history and examination blocks
when the trimmed fields are truthy (non-empty). -/
def promptText (req : AnalysisRequest) : String :=
  let p0 := instructionHeader
  let p1 :=
    if jsTrim req.history = "" then p0
    else p0 ++ "### History:\n" ++ req.history ++ "\n\n"
  let p2 :=
    if jsTrim req.examination = "" then p1
    else p1 ++ "### Examination:\n" ++ req.examination ++ "\n\n"
  p2

/-- The `parts` array of `runIntegratedAnalysis` step 2: the prompt text,
then one pushed part per file (in order), then the audio part if present. -/
def buildParts (req : AnalysisRequest) : List Part :=
  let parts0 := [Part.text (promptText req)]
  let parts1 := req.files.foldl
    (fun acc f => acc ++ [Part.inline (fileToGenerativePart f f.type)]) parts0
  match req.audioBlob with
  | some b => parts1 ++ [Part.inline (fileToGenerativePart b b.type)]
  | none => parts1

/-- The `generationConfig` of the payload (the literal `0.2` is the exact
rational the source writes; nothing downstream depends on it). -/
structure GenerationConfig where
  temperature : Rat
  maxOutputTokens : Nat
deriving DecidableEq, Repr

/-- One conversational turn of the payload. -/
structure ContentTurn where
  role : String
  parts : List Part
deriving DecidableEq, Repr

/-- The JSON payload of `runIntegratedAnalysis` step 4. -/
structure InferencePayload where
  contents : List ContentTurn
  generationConfig : GenerationConfig
deriving DecidableEq, Repr

/-- The payload built by `runIntegratedAnalysis`: a single user turn holding
the parts, plus the fixed generation configuration. -/
def buildPayload (req : AnalysisRequest) : InferencePayload :=
  { contents := [{ role := "user", parts := buildParts req }]
    generationConfig := { temperature := 2 / 10, maxOutputTokens := 2048 } }

/-- The endpoint URL of `runIntegratedAnalysis` step 4 (`API_URL`). -/
def apiUrl (req : AnalysisRequest) : String :=
  "https://generativelanguage.googleapis.com/v1beta/models/" ++ req.model
    ++ ":generateContent?key=" ++ req.apiKey

/-- The anonymized record logged by the data-donation branch: lengths and
counts of the inputs only. -/
structure TelemetryRecord where
  historyLength : Nat
  examLength : Nat
  fileCount : Nat
  audioAttached : Bool
deriving DecidableEq, Repr

/-- The telemetry emissions of `runIntegratedAnalysis` step 3: one record when
`donateData` is set, none otherwise. -/
def telemetryEmission (req : AnalysisRequest) : List TelemetryRecord :=
  if req.donateData then
    [{ historyLength := req.history.length
       examLength := req.examination.length
       fileCount := req.files.length
       audioAttached := req.audioBlob.isSome }]
  else []

/-- A JS exception reaching the caller: either an `Error` thrown with a
message, or a `TypeError` from reading the named property of `undefined`. -/
inductive JsError where
  | thrown (message : String)
  | undefinedAccess (field : String)
deriving DecidableEq, Repr

/-- The `error` object of a non-success response body. -/
structure UpstreamErrorInfo where
  message : Option String
deriving DecidableEq, Repr

/-- One part of the content of a response candidate. -/
structure ResponsePart where
  text : String
deriving DecidableEq, Repr

/-- The `content` of a response candidate. -/
structure CandidateContent where
  parts : List ResponsePart
deriving DecidableEq, Repr

/-- One candidate completion of the response body. -/
structure Candidate where
  content : CandidateContent
deriving DecidableEq, Repr

/-- The JSON body consumed from the upstream response; `Option` marks fields
the JSON may omit. -/
structure ResponseBody where
  error : Option UpstreamErrorInfo
  candidates : Option (List Candidate)
deriving DecidableEq, Repr

/-- The outcome of the single `fetch`: a response with its `ok` flag and
parsed JSON body, or a rejection carrying the engine message (in practice
"Failed to fetch" or similar). -/
inductive FetchOutcome where
  | success (ok : Bool) (body : ResponseBody)
  | networkFailure (message : String)
deriving DecidableEq, Repr

/-- JS `errParts.error?.message || "Failed to fetch from LLM API"`: the
default is used when `error` or `message` is absent, and also when the
message is the empty string (falsy in JS). -/
def upstreamErrorMessage (body : ResponseBody) : String :=
  match body.error with
  | none => "Failed to fetch from LLM API"
  | some e =>
    match e.message with
    | none => "Failed to fetch from LLM API"
    | some m => if m = "" then "Failed to fetch from LLM API" else m

/-- The body of the `try` block after the fetch: throw on `!response.ok`;
then `if (data.candidates && data.candidates[0].content.parts.length > 0)`
return the text of the first part, else throw "No response generated.".  A present
but empty `candidates` array is truthy in JS, so the guard passes and reading
`candidates[0].content` raises a `TypeError`. -/
def dispatchAttempt (outcome : FetchOutcome) : Except JsError String :=
  match outcome with
  | .networkFailure msg => .error (.thrown msg)
  | .success ok body =>
    if ok = false then
      .error (.thrown (upstreamErrorMessage body))
    else
      match body.candidates with
      | none => .error (.thrown "No response generated.")
      | some [] => .error (.undefinedAccess "content")
      | some (c :: _) =>
        match c.content.parts with
        | [] => .error (.thrown "No response generated.")
        | p :: _ => .ok p.text

/-- The `catch` block: an `Error` whose message includes "fetch" is replaced
by the network/CORS error; everything else is rethrown unchanged.  V8 and
SpiderMonkey messages for property reads on `undefined` never contain
"fetch", so `undefinedAccess` errors are rethrown. -/
def applyCatch : Except JsError String → Except JsError String
  | .ok v => .ok v
  | .error (.thrown msg) =>
    if hasSubstring msg.data ("fetch".data) then
      .error (.thrown "Network error or CORS issue. Try using a proxy or ensure API key is valid.")
    else .error (.thrown msg)
  | .error (.undefinedAccess f) => .error (.undefinedAccess f)

/-- The whole `try`/`catch` around the fetch. -/
def handleResponse (outcome : FetchOutcome) : Except JsError String :=
  applyCatch (dispatchAttempt outcome)

/-- The observable trace of one `runIntegratedAnalysis` call: the network
requests issued (URL and payload), the telemetry emitted, and the result. -/
structure RunResult where
  requests : List (String × InferencePayload)
  telemetry : List TelemetryRecord
  result : Except JsError String
deriving DecidableEq, Repr

/-- The error message of the missing-credential guard. -/
def missingKeyMessage : String :=
  "API Key is missing. Please configure it in settings."

/-- `runIntegratedAnalysis` of `services/api.ts`, parametrised by the fetch
outcome: the guard `if (!request.apiKey) throw` runs first (before the prompt
assembly, the telemetry and the fetch); otherwise the telemetry fires when
opted in, exactly one request is issued to `API_URL` with the built payload,
and the response is handled by the `try`/`catch`. -/
def runIntegratedAnalysis (req : AnalysisRequest) (transport : FetchOutcome) :
    RunResult :=
  if req.apiKey = "" then
    { requests := [], telemetry := [],
      result := .error (.thrown missingKeyMessage) }
  else
    { requests := [(apiUrl req, buildPayload req)]
      telemetry := telemetryEmission req
      result := handleResponse transport }

/-- `App.tsx` `handleAnalyze`: whether the selected inference target is the
custom Hugging Face Space class (`modelType` equal to `hf-space:custom`). -/
def isHfModelType (modelType : String) : Bool := modelType == "hf-space:custom"

/-- `App.tsx` `handleAnalyze`: the model string passed down to
`runIntegratedAnalysis`. -/
def computedModel (modelType customHfSpace : String) : String :=
  if isHfModelType modelType then "hf-space:" ++ customHfSpace else modelType

/-- `App.tsx` `handleAnalyze`: the guard `if (!apiKey && !isHfModel)` that
opens settings and aborts before calling `runIntegratedAnalysis`. -/
def handleAnalyzeRejects (apiKey modelType : String) : Bool :=
  apiKey == "" && !(isHfModelType modelType)

/-! ## Helper lemmas -/

/-- Indexing inverts the alphabet map on six-bit values, and no alphabet
character is a padding `=` or a comma. -/
theorem b64Char_props :
    ∀ n, n < 64 → b64Index (b64Char n) = n ∧ b64Char n ≠ '=' ∧ b64Char n ≠ ',' := by
  decide

/-- Base64 decoding inverts base64 encoding on byte lists. -/
theorem b64DecodeList_b64EncodeList :
    ∀ bs : List Nat, (∀ b ∈ bs, b < 256) →
      b64DecodeList (b64EncodeList bs) = bs
  | [], _ => rfl
  | [b0], h => by
    have h0 : b0 < 256 := h b0 (by simp)
    obtain ⟨e0, -, -⟩ := b64Char_props (b0 / 4) (by omega)
    obtain ⟨e1, -, -⟩ := b64Char_props (b0 % 4 * 16) (by omega)
    simp only [b64EncodeList, b64DecodeList, if_pos, e0, e1, List.cons.injEq, and_true]
    omega
  | [b0, b1], h => by
    have h0 : b0 < 256 := h b0 (by simp)
    have h1 : b1 < 256 := h b1 (by simp)
    obtain ⟨e0, -, -⟩ := b64Char_props (b0 / 4) (by omega)
    obtain ⟨e1, -, -⟩ := b64Char_props (b0 % 4 * 16 + b1 / 16) (by omega)
    obtain ⟨e2, ne2, -⟩ := b64Char_props (b1 % 16 * 4) (by omega)
    simp only [b64EncodeList, b64DecodeList, if_neg ne2, if_pos, e0, e1, e2,
      List.cons.injEq, and_true]
    omega
  | b0 :: b1 :: b2 :: rest, h => by
    have h0 : b0 < 256 := h b0 (by simp)
    have h1 : b1 < 256 := h b1 (by simp)
    have h2 : b2 < 256 := h b2 (by simp)
    obtain ⟨e0, -, -⟩ := b64Char_props (b0 / 4) (by omega)
    obtain ⟨e1, -, -⟩ := b64Char_props (b0 % 4 * 16 + b1 / 16) (by omega)
    obtain ⟨e2, ne2, -⟩ := b64Char_props (b1 % 16 * 4 + b2 / 64) (by omega)
    obtain ⟨e3, ne3, -⟩ := b64Char_props (b2 % 64) (by omega)
    have ih := b64DecodeList_b64EncodeList rest (fun b hb => h b (by simp [hb]))
    simp only [b64EncodeList, b64DecodeList, if_neg ne2, if_neg ne3, e0, e1, e2, e3,
      ih, List.cons.injEq, and_true]
    omega

/-- No comma occurs in a base64 encoding. -/
theorem b64EncodeList_no_comma :
    ∀ bs : List Nat, (∀ b ∈ bs, b < 256) → ',' ∉ b64EncodeList bs
  | [], _ => by simp [b64EncodeList]
  | [b0], h => by
    have h0 : b0 < 256 := h b0 (by simp)
    obtain ⟨-, -, n0⟩ := b64Char_props (b0 / 4) (by omega)
    obtain ⟨-, -, n1⟩ := b64Char_props (b0 % 4 * 16) (by omega)
    simp only [b64EncodeList, List.mem_cons]
    intro hc
    rcases hc with hc | hc | hc | hc | hc
    · exact n0 hc.symm
    · exact n1 hc.symm
    · exact absurd hc (by decide)
    · exact absurd hc (by decide)
    · exact absurd hc (List.not_mem_nil _)
  | [b0, b1], h => by
    have h0 : b0 < 256 := h b0 (by simp)
    have h1 : b1 < 256 := h b1 (by simp)
    obtain ⟨-, -, n0⟩ := b64Char_props (b0 / 4) (by omega)
    obtain ⟨-, -, n1⟩ := b64Char_props (b0 % 4 * 16 + b1 / 16) (by omega)
    obtain ⟨-, -, n2⟩ := b64Char_props (b1 % 16 * 4) (by omega)
    simp only [b64EncodeList, List.mem_cons]
    intro hc
    rcases hc with hc | hc | hc | hc | hc
    · exact n0 hc.symm
    · exact n1 hc.symm
    · exact n2 hc.symm
    · exact absurd hc (by decide)
    · exact absurd hc (List.not_mem_nil _)
  | b0 :: b1 :: b2 :: rest, h => by
    have h0 : b0 < 256 := h b0 (by simp)
    have h1 : b1 < 256 := h b1 (by simp)
    have h2 : b2 < 256 := h b2 (by simp)
    obtain ⟨-, -, n0⟩ := b64Char_props (b0 / 4) (by omega)
    obtain ⟨-, -, n1⟩ := b64Char_props (b0 % 4 * 16 + b1 / 16) (by omega)
    obtain ⟨-, -, n2⟩ := b64Char_props (b1 % 16 * 4 + b2 / 64) (by omega)
    obtain ⟨-, -, n3⟩ := b64Char_props (b2 % 64) (by omega)
    have ih := b64EncodeList_no_comma rest (fun b hb => h b (by simp [hb]))
    simp only [b64EncodeList, List.mem_cons]
    intro hc
    rcases hc with hc | hc | hc | hc | hc
    · exact n0 hc.symm
    · exact n1 hc.symm
    · exact n2 hc.symm
    · exact n3 hc.symm
    · exact ih hc

/-- The JS comma splitter never returns an empty list of chunks. -/
theorem jsSplitList_ne_nil : ∀ l : List Char, jsSplitList l ≠ []
  | [] => by simp [jsSplitList]
  | c :: rest => by
    simp only [jsSplitList]
    split
    · simp
    · split <;> simp

/-- Splitting a comma-free chunk returns just that chunk. -/
theorem jsSplitList_no_comma : ∀ l : List Char, ',' ∉ l → jsSplitList l = [l]
  | [], _ => rfl
  | c :: rest, h => by
    have hc : ¬c = ',' := fun e => h (by simp [e])
    have hr : jsSplitList rest = [rest] :=
      jsSplitList_no_comma rest (fun m => h (by simp [m]))
    simp only [jsSplitList, hr]
    rw [if_neg hc]

/-- Splitting at the first comma after a comma-free chunk peels that chunk. -/
theorem jsSplitList_append :
    ∀ (a b : List Char), ',' ∉ a →
      jsSplitList (a ++ ',' :: b) = a :: jsSplitList b
  | [], b, _ => by
    simp only [List.nil_append, jsSplitList]
    rcases hs : jsSplitList b with - | ⟨h, t⟩
    · exact absurd hs (jsSplitList_ne_nil b)
    · simp
  | c :: a, b, h => by
    have hc : ¬c = ',' := fun e => h (by simp [e])
    have hr : jsSplitList (a.append (',' :: b)) = a :: jsSplitList b :=
      jsSplitList_append a b (fun m => h (by simp [m]))
    simp only [List.cons_append, jsSplitList]
    rw [hr]
    simp [hc]

/-- Pushing mapped elements one by one onto an accumulator is append of the
mapped list. -/
theorem foldl_push {α β : Type} (f : α → β) :
    ∀ (l : List α) (init : List β),
      l.foldl (fun acc x => acc ++ [f x]) init = init ++ l.map f
  | [], init => by simp
  | x :: l, init => by
    simp only [List.foldl_cons, List.map_cons]
    rw [foldl_push f l (init ++ [f x])]
    simp

/-- A list is a `isPrefixOf`-prefix of itself followed by anything. -/
theorem isPrefixOf_append_self (l t : List Char) : l.isPrefixOf (l ++ t) = true := by
  rw [List.isPrefixOf_iff_prefix]
  exact List.prefix_append l t

/-- `hasSubstring` holds when the needle is a prefix of the haystack. -/
theorem hasSubstring_of_isPrefixOf (hay needle : List Char)
    (h : needle.isPrefixOf hay = true) : hasSubstring hay needle = true := by
  rw [hasSubstring.eq_def, h, Bool.true_or]

/-- `hasSubstring` is preserved by prepending to the haystack. -/
theorem hasSubstring_append (a b needle : List Char)
    (h : hasSubstring b needle = true) : hasSubstring (a ++ b) needle = true := by
  induction a with
  | nil => simpa using h
  | cons c a ih =>
    rw [List.cons_append, hasSubstring.eq_def]
    simp only [ih, Bool.or_true]

/-- The parts list in closed form: instruction text first, one mapped part
per file in order, then the audio part when present. -/
theorem buildParts_eq (req : AnalysisRequest) :
    buildParts req =
      Part.text (promptText req)
        :: req.files.map (fun f => Part.inline (fileToGenerativePart f f.type))
        ++ (match req.audioBlob with
            | some b => [Part.inline (fileToGenerativePart b b.type)]
            | none => []) := by
  rcases hb : req.audioBlob with - | b <;>
    simp only [buildParts, hb, foldl_push] <;> simp

/-! ## Claim theorems -/

/-- C1, counterexample: with the custom Hugging Face Space target selected (a
no-credential endpoint class, which the `handleAnalyze` guard deliberately
lets through with an empty key) `runIntegratedAnalysis` still rejects the
request with the missing-API-key error, so an empty credential is not
accepted for the no-credential endpoint class. -/
theorem hfSpace_empty_key_still_rejected :
    handleAnalyzeRejects "" "hf-space:custom" = false
    ∧ (runIntegratedAnalysis
        { history := "h", examination := "", files := [], audioBlob := none,
          apiKey := "",
          model := computedModel "hf-space:custom" "hssling/diagnostic-copilot-api",
          donateData := false }
        (FetchOutcome.networkFailure "Failed to fetch")).result
      = Except.error (JsError.thrown missingKeyMessage) :=
  ⟨by decide, by decide⟩

/-- C1, amended: `runIntegratedAnalysis` rejects with the missing-API-key
error if and only if the credential is empty, regardless of the model class
selected (including custom Hugging Face Spaces); when it rejects no network
request is issued, and with a non-empty credential exactly one request is
issued. -/
theorem missing_key_rejection_iff_empty_credential
    (req : AnalysisRequest) (t : FetchOutcome) :
    (req.apiKey = "" →
      (runIntegratedAnalysis req t).result
          = Except.error (JsError.thrown missingKeyMessage)
      ∧ (runIntegratedAnalysis req t).requests = [])
    ∧ (¬req.apiKey = "" →
      (runIntegratedAnalysis req t).requests = [(apiUrl req, buildPayload req)]) := by
  constructor
  · intro h
    simp [runIntegratedAnalysis, h]
  · intro h
    simp [runIntegratedAnalysis, h]

/-- C1, witness for the amended theorem at concrete requests. -/
theorem missing_key_rejection_iff_empty_credential_witness :
    (runIntegratedAnalysis
        { history := "h", examination := "", files := [], audioBlob := none,
          apiKey := "", model := "gemini-2.5-flash", donateData := false }
        (FetchOutcome.networkFailure "Failed to fetch")).requests = []
    ∧ (runIntegratedAnalysis
        { history := "h", examination := "", files := [], audioBlob := none,
          apiKey := "k", model := "gemini-2.5-flash", donateData := false }
        (FetchOutcome.networkFailure "Failed to fetch")).requests
      = [(apiUrl
            { history := "h", examination := "", files := [], audioBlob := none,
              apiKey := "k", model := "gemini-2.5-flash", donateData := false },
          buildPayload
            { history := "h", examination := "", files := [], audioBlob := none,
              apiKey := "k", model := "gemini-2.5-flash", donateData := false })] :=
  ⟨((missing_key_rejection_iff_empty_credential _ _).1 rfl).2,
   (missing_key_rejection_iff_empty_credential _ _).2 (by decide)⟩

/-- C2: the parts sequence has exactly `1 + |files| + (audio ? 1 : 0)`
elements, the instruction text is first, each attachment yields exactly one
encoded part at position `1 + i` (preserving order), and the audio blob, when
present, yields exactly one encoded part placed last. -/
theorem buildParts_count_and_order (req : AnalysisRequest) :
    (buildParts req).length
      = 1 + req.files.length + (if req.audioBlob.isSome then 1 else 0)
    ∧ (buildParts req)[0]? = some (Part.text (promptText req))
    ∧ (∀ i (hi : i < req.files.length),
        (buildParts req)[1 + i]?
          = some (Part.inline (fileToGenerativePart req.files[i] req.files[i].type)))
    ∧ (∀ b, req.audioBlob = some b →
        (buildParts req)[1 + req.files.length]?
          = some (Part.inline (fileToGenerativePart b b.type))
        ∧ (buildParts req).length = 1 + req.files.length + 1) := by
  have he := buildParts_eq req
  refine ⟨?_, ?_, ?_, ?_⟩
  · rw [he]
    rcases hb : req.audioBlob with - | b <;> simp [hb] <;> omega
  · rw [he]
    simp
  · intro i hi
    rw [he, Nat.add_comm 1 i]
    rw [List.getElem?_append_left
      (by simp only [List.length_cons, List.length_map]; omega)]
    simp only [List.getElem?_cons_succ]
    simp [List.getElem?_eq_getElem hi]
  · intro b hb
    rw [he]
    simp only [hb]
    constructor
    · rw [Nat.add_comm 1 req.files.length]
      rw [List.getElem?_append_right
        (by simp only [List.length_cons, List.length_map]; omega)]
      simp
    · simp
      omega

/-- C2, witness at a request with two attachments and an audio blob. -/
theorem buildParts_count_and_order_witness :
    (buildParts
        { history := "h", examination := "e",
          files := [{ name := "a.png", type := "image/png", bytes := [1] },
                    { name := "b.pdf", type := "application/pdf", bytes := [2] }],
          audioBlob := some { name := "", type := "audio/webm", bytes := [3] },
          apiKey := "k", model := "gemini-2.5-flash", donateData := false }).length = 4
    ∧ (buildParts
        { history := "h", examination := "e",
          files := [{ name := "a.png", type := "image/png", bytes := [1] },
                    { name := "b.pdf", type := "application/pdf", bytes := [2] }],
          audioBlob := some { name := "", type := "audio/webm", bytes := [3] },
          apiKey := "k", model := "gemini-2.5-flash", donateData := false })[2]?
      = some (Part.inline
          (fileToGenerativePart { name := "b.pdf", type := "application/pdf", bytes := [2] }
            "application/pdf")) :=
  ⟨(buildParts_count_and_order _).1,
   (buildParts_count_and_order _).2.2.1 1 (by decide)⟩

/-- C3: on an HTTP-ok response whose JSON body has a present but empty
`candidates` array, the guard `data.candidates && ...` passes (an empty JS
array is truthy) and reading `candidates[0].content` raises a `TypeError`;
the run therefore does not fail with the EmptyResultError
"No response generated.", which is reached only when `candidates` is absent
or the first candidate has no parts. -/
theorem empty_candidates_raises_typeError :
    (runIntegratedAnalysis
        { history := "", examination := "", files := [], audioBlob := none,
          apiKey := "k", model := "gemini-2.5-flash", donateData := false }
        (FetchOutcome.success true { error := none, candidates := some [] })).result
      = Except.error (JsError.undefinedAccess "content")
    ∧ (runIntegratedAnalysis
        { history := "", examination := "", files := [], audioBlob := none,
          apiKey := "k", model := "gemini-2.5-flash", donateData := false }
        (FetchOutcome.success true { error := none, candidates := some [] })).result
      ≠ Except.error (JsError.thrown "No response generated.")
    ∧ (runIntegratedAnalysis
        { history := "", examination := "", files := [], audioBlob := none,
          apiKey := "k", model := "gemini-2.5-flash", donateData := false }
        (FetchOutcome.success true { error := none, candidates := none })).result
      = Except.error (JsError.thrown "No response generated.") :=
  ⟨by decide, by decide, by decide⟩

/-- C4: on a non-success response with body error message "quota exceeded"
the run fails with exactly that message; but with no upstream message the
fallback "Failed to fetch from LLM API" contains the substring "fetch", so
the catch clause rewrites it and the run fails with the network/CORS message
instead of the generic upstream-failure message. -/
theorem upstream_error_message_handling :
    (runIntegratedAnalysis
        { history := "", examination := "", files := [], audioBlob := none,
          apiKey := "k", model := "gemini-2.5-flash", donateData := false }
        (FetchOutcome.success false
          { error := some { message := some "quota exceeded" }, candidates := none })).result
      = Except.error (JsError.thrown "quota exceeded")
    ∧ (runIntegratedAnalysis
        { history := "", examination := "", files := [], audioBlob := none,
          apiKey := "k", model := "gemini-2.5-flash", donateData := false }
        (FetchOutcome.success false
          { error := none, candidates := none })).result
      = Except.error (JsError.thrown
          "Network error or CORS issue. Try using a proxy or ensure API key is valid.")
    ∧ "Network error or CORS issue. Try using a proxy or ensure API key is valid."
      ≠ "Failed to fetch from LLM API" :=
  ⟨by decide, by decide, by decide⟩

/-- C5: on a successful response with at least one candidate whose content
has at least one part, the run returns exactly the text of the first part of
the first candidate, unmodified, ignoring all further candidates and parts
and performing no validation of the text. -/
theorem first_candidate_first_part_returned (req : AnalysisRequest)
    (body : ResponseBody) (c : Candidate) (cs : List Candidate)
    (p : ResponsePart) (ps : List ResponsePart)
    (hk : ¬req.apiKey = "")
    (hc : body.candidates = some (c :: cs))
    (hp : c.content.parts = p :: ps) :
    (runIntegratedAnalysis req (FetchOutcome.success true body)).result
      = Except.ok p.text := by
  simp [runIntegratedAnalysis, hk, handleResponse, dispatchAttempt, hc, hp, applyCatch]

/-- C5, witness: the example response text of the spec is returned verbatim,
with a second part and a second candidate present and ignored. -/
theorem first_candidate_first_part_returned_witness :
    (runIntegratedAnalysis
        { history := "h", examination := "", files := [], audioBlob := none,
          apiKey := "k", model := "gemini-2.5-flash", donateData := false }
        (FetchOutcome.success true
          { error := none,
            candidates := some
              [{ content := { parts := [{ text := "## Integrated Analysis\nFindings." },
                                        { text := "ignored part" }] } },
               { content := { parts := [{ text := "ignored candidate" }] } }] })).result
      = Except.ok "## Integrated Analysis\nFindings." :=
  first_candidate_first_part_returned _ _ _ _ _ _ (by decide) rfl rfl

/-- C6, counterexample: a request whose model selector designates the custom
Hugging Face Space family is nevertheless addressed to the Google
generativelanguage endpoint, with the credential embedded as the `key` query
parameter there too — there is no distinct endpoint per model family and the
credential is not restricted to the default family. -/
theorem hfSpace_request_uses_gemini_endpoint_with_key :
    isHfModelType "hf-space:custom" = true
    ∧ apiUrl
        { history := "", examination := "", files := [], audioBlob := none,
          apiKey := "secret",
          model := computedModel "hf-space:custom" "hssling/diagnostic-copilot-api",
          donateData := false }
      = "https://generativelanguage.googleapis.com/v1beta/models/hf-space:hssling/diagnostic-copilot-api:generateContent?key=secret" :=
  ⟨rfl, by decide⟩

/-- C6, amended: every request, for every model selector, is sent to the one
Google generativelanguage endpoint: the URL always starts with that host and
path followed by the model identifier, and always embeds the credential as
the `key` query parameter. -/
theorem apiUrl_embeds_model_and_credential (req : AnalysisRequest) :
    ("https://generativelanguage.googleapis.com/v1beta/models/" ++ req.model).data.isPrefixOf
        (apiUrl req).data = true
    ∧ hasSubstring (apiUrl req).data
        ((":generateContent?key=" ++ req.apiKey).data) = true := by
  have hdecomp : (apiUrl req).data
      = ("https://generativelanguage.googleapis.com/v1beta/models/" ++ req.model).data
        ++ (":generateContent?key=" ++ req.apiKey).data := by
    simp only [apiUrl, String.data_append, List.append_assoc]
  have hself : ((":generateContent?key=" ++ req.apiKey).data).isPrefixOf
      ((":generateContent?key=" ++ req.apiKey).data) = true := by
    have h0 := isPrefixOf_append_self ((":generateContent?key=" ++ req.apiKey).data) []
    rwa [List.append_nil] at h0
  constructor
  · rw [hdecomp]
    exact isPrefixOf_append_self _ _
  · rw [hdecomp]
    exact hasSubstring_append _ _ _ (hasSubstring_of_isPrefixOf _ _ hself)

set_option maxRecDepth 8192 in
/-- C7, counterexample: a whitespace-only history field is a non-empty
string, yet the prompt assembly trims it before the truthiness check and
silently drops the history block — the assembled prompt is just the fixed
header, so a non-empty input field does not always yield a payload element. -/
theorem whitespace_history_block_dropped :
    ("   " : String) ≠ ""
    ∧ promptText
        { history := "   ", examination := "", files := [], audioBlob := none,
          apiKey := "k", model := "gemini-2.5-flash", donateData := false }
      = instructionHeader :=
  ⟨by decide, by decide⟩

/-- C7, amended: the assembled instruction prompt is the fixed header
followed by the history block exactly when the trimmed history is non-empty,
followed by the examination block exactly when the trimmed examination is
non-empty; a field with non-whitespace content is never dropped, while an
empty or whitespace-only field adds nothing. -/
theorem promptText_appends_blocks_iff_nonempty (req : AnalysisRequest) :
    promptText req =
      instructionHeader
        ++ (if jsTrim req.history = "" then ""
            else "### History:\n" ++ req.history ++ "\n\n")
        ++ (if jsTrim req.examination = "" then ""
            else "### Examination:\n" ++ req.examination ++ "\n\n") := by
  simp only [promptText]
  split_ifs <;> refine String.ext ?_ <;>
    simp [String.data_append, List.append_assoc]

/-- C8: `fileToGenerativePart` produces the base64 text of the file bytes
stripped of the data-URI prefix, paired with the passed media type, and
base64-decoding the produced string yields exactly the original bytes. -/
theorem fileToGenerativePart_base64_roundtrip (f : JsFile) (m : String)
    (hbytes : ∀ b ∈ f.bytes, b < 256) (hm : ',' ∉ f.type.data) :
    (fileToGenerativePart f m).inlineData.data = base64Encode f.bytes
    ∧ (fileToGenerativePart f m).inlineData.mimeType = m
    ∧ base64Decode ((fileToGenerativePart f m).inlineData.data) = f.bytes := by
  have hdata : (readAsDataURL f).data
      = ("data:".data ++ f.type.data ++ (";base64").data) ++ ',' :: b64EncodeList f.bytes := by
    simp [readAsDataURL, String.data_append, base64Encode, List.append_assoc,
      List.cons_append, List.nil_append]
  have hA : ',' ∉ ("data:".data ++ f.type.data ++ (";base64").data) := by
    simp only [List.mem_append]
    rintro ((h1 | h2) | h3)
    · exact absurd h1 (by decide)
    · exact hm h2
    · exact absurd h3 (by decide)
  have hB : ',' ∉ b64EncodeList f.bytes := b64EncodeList_no_comma f.bytes hbytes
  have hsplit : jsSplitComma (readAsDataURL f)
      = [String.mk ("data:".data ++ f.type.data ++ (";base64").data),
         base64Encode f.bytes] := by
    unfold jsSplitComma
    rw [hdata, jsSplitList_append _ _ hA, jsSplitList_no_comma _ hB]
    rfl
  have hpart : (fileToGenerativePart f m).inlineData.data = base64Encode f.bytes := by
    simp [fileToGenerativePart, hsplit]
  refine ⟨hpart, rfl, ?_⟩
  rw [hpart]
  exact b64DecodeList_b64EncodeList f.bytes hbytes

/-- C8, witness at a concrete PNG-like attachment. -/
theorem fileToGenerativePart_base64_roundtrip_witness :
    (fileToGenerativePart
        { name := "scan.png", type := "image/png", bytes := [137, 80, 78, 71] }
        "image/png").inlineData.data
      = base64Encode [137, 80, 78, 71]
    ∧ base64Decode
        ((fileToGenerativePart
            { name := "scan.png", type := "image/png", bytes := [137, 80, 78, 71] }
            "image/png").inlineData.data)
      = [137, 80, 78, 71] :=
  ⟨(fileToGenerativePart_base64_roundtrip _ "image/png" (by decide) (by decide)).1,
   (fileToGenerativePart_base64_roundtrip _ "image/png" (by decide) (by decide)).2.2⟩

/-- C9: the telemetry emission depends only on the lengths and counts of the
inputs (never their contents), and the issued request and the returned result
are identical whether or not the data-donation flag is set. -/
theorem telemetry_counts_only_and_independent :
    (∀ r1 r2 : AnalysisRequest,
        r1.donateData = r2.donateData →
        r1.history.length = r2.history.length →
        r1.examination.length = r2.examination.length →
        r1.files.length = r2.files.length →
        r1.audioBlob.isSome = r2.audioBlob.isSome →
        telemetryEmission r1 = telemetryEmission r2)
    ∧ (∀ (req : AnalysisRequest) (d : Bool) (t : FetchOutcome),
        (runIntegratedAnalysis { req with donateData := d } t).requests
          = (runIntegratedAnalysis req t).requests
        ∧ (runIntegratedAnalysis { req with donateData := d } t).result
          = (runIntegratedAnalysis req t).result) := by
  constructor
  · intro r1 r2 hd hh he hf ha
    simp [telemetryEmission, hd, hh, he, hf, ha]
  · intro req d t
    by_cases h : req.apiKey = "" <;>
      simp [runIntegratedAnalysis, h, apiUrl, buildPayload, buildParts, promptText]

/-- C9, witness: same emission for different contents of equal sizes, and the
result is unchanged by turning the donation flag off. -/
theorem telemetry_counts_only_and_independent_witness :
    telemetryEmission
        { history := "ab", examination := "c", files := [], audioBlob := none,
          apiKey := "k", model := "m", donateData := true }
      = telemetryEmission
          { history := "xy", examination := "z", files := [], audioBlob := none,
            apiKey := "k2", model := "m2", donateData := true }
    ∧ (runIntegratedAnalysis
        { history := "ab", examination := "c", files := [], audioBlob := none,
          apiKey := "k", model := "m", donateData := false }
        (FetchOutcome.networkFailure "Failed to fetch")).result
      = (runIntegratedAnalysis
          { history := "ab", examination := "c", files := [], audioBlob := none,
            apiKey := "k", model := "m", donateData := true }
          (FetchOutcome.networkFailure "Failed to fetch")).result :=
  ⟨telemetry_counts_only_and_independent.1 _ _ rfl (by decide) (by decide) rfl rfl,
   (telemetry_counts_only_and_independent.2
      { history := "ab", examination := "c", files := [], audioBlob := none,
        apiKey := "k", model := "m", donateData := true }
      false (FetchOutcome.networkFailure "Failed to fetch")).2⟩

end DiagnosticCopilot
